import Mathlib

/-!
Shallow embedding of `timeline_widget.py` (class `TimelineBridge`), the
bridge/synchronization layer between the Qt host and the embedded JS timeline.

Python values that cross the Qt/JS boundary are modelled by `PyVal`:
floats are modelled as rationals (the bridge never performs float
arithmetic — values are only stored, compared against defaults and passed
through), dictionaries as association lists in insertion order (keys are
unique in every dictionary the program builds), and `copy.deepcopy` on
these immutable trees is the identity (a separate heap-object model,
`PObj` below, is used where object identity itself is the property under
study).
-/

/-- Python values exchanged across the bridge boundary
(`None`, `bool`, `int`, `float`, `str`, `list`, `dict`). -/
inductive PyVal where
  | vnone : PyVal
  | vbool : Bool → PyVal
  | vint : Int → PyVal
  | vnum : ℚ → PyVal
  | vstr : String → PyVal
  | vlist : List PyVal → PyVal
  | vdict : List (String × PyVal) → PyVal

/-- Python truthiness (`bool(x)` is `False`): `None`, `False`, `0`, `0.0`,
empty string, empty list, empty dict. Used by `state or {}` and by
`if self._latest_project_state:`-style tests in the source. -/
def isFalsy : PyVal → Bool
  | .vnone => true
  | .vbool b => !b
  | .vint n => n = 0
  | .vnum q => q = 0
  | .vstr s => s = ""
  | .vlist xs => xs.isEmpty
  | .vdict es => es.isEmpty

/-- First-match association lookup: Python `d[k]` / `k in d` on dicts whose
keys are unique. -/
def dictLookup : List (String × PyVal) → String → Option PyVal
  | [], _ => none
  | (k, v) :: rest, key => if k = key then some v else dictLookup rest key

/-- Python `d.get(k, default)`. -/
def dictGet (es : List (String × PyVal)) (k : String) (d : PyVal) : PyVal :=
  (dictLookup es k).getD d

mutual

/-- `TimelineBridge._convert_variant` (timeline_widget.py lines 284-293):
recursively rebuild lists and dicts, leave scalars alone. -/
def convertVariant : PyVal → PyVal
  | .vlist xs => .vlist (convertVariantList xs)
  | .vdict es => .vdict (convertVariantDict es)
  | v => v

/-- Recursion of `_convert_variant` through a list. -/
def convertVariantList : List PyVal → List PyVal
  | [] => []
  | x :: xs => convertVariant x :: convertVariantList xs

/-- Recursion of `_convert_variant` through dict items. -/
def convertVariantDict : List (String × PyVal) → List (String × PyVal)
  | [] => []
  | (k, v) :: es => (k, convertVariant v) :: convertVariantDict es

end

mutual

theorem convertVariant_id : (v : PyVal) → convertVariant v = v
  | .vnone => by simp [convertVariant]
  | .vbool _ => by simp [convertVariant]
  | .vint _ => by simp [convertVariant]
  | .vnum _ => by simp [convertVariant]
  | .vstr _ => by simp [convertVariant]
  | .vlist xs => by simp [convertVariant, convertVariantList_id xs]
  | .vdict es => by simp [convertVariant, convertVariantDict_id es]

theorem convertVariantList_id : (xs : List PyVal) → convertVariantList xs = xs
  | [] => by simp [convertVariantList]
  | x :: xs => by
      simp [convertVariantList, convertVariant_id x, convertVariantList_id xs]

theorem convertVariantDict_id : (es : List (String × PyVal)) →
    convertVariantDict es = es
  | [] => by simp [convertVariantDict]
  | (k, v) :: es => by
      simp [convertVariantDict, convertVariant_id v, convertVariantDict_id es]

end

/-- Outbound JavaScript commands issued through `_run_js` /
`page.runJavaScript`: one constructor per `window.timelineApi` call the
bridge serializes (the serialized argument payloads are kept structured). -/
inductive JsCmd where
  | addClip : List (String × PyVal) → JsCmd
  | addTrack : List (String × PyVal) → JsCmd
  | removeTrack : PyVal → Bool → Bool → JsCmd
  | removeClip : String → JsCmd
  | updateClip : String → List (String × PyVal) → JsCmd
  | moveClip : String → Option PyVal → Option ℚ → List (String × PyVal) → JsCmd
  | setPlayheadPlaying : Bool → Option ℚ → JsCmd
  | togglePlayhead : JsCmd
  | setClipColor : String → String → Option String → JsCmd
  | setProjectState : List (String × PyVal) → JsCmd
  | setFrameRate : PyVal → JsCmd
  | resizeTimeline : ℚ → Bool → JsCmd
  | emitProjectState : JsCmd
  | movePlayhead : ℚ → JsCmd

/-- State of one `TimelineBridge` instance (timeline_widget.py lines 26-40),
together with observation/instrumentation fields that record what the
Python object does through its environment: `sent` lists the JavaScript
commands actually passed to `page.runJavaScript`, `queuedTasks` counts
`QTimer.singleShot` deferred tasks created by `_queue_state_refresh` and
not yet run, `outstanding` counts `emitProjectState` requests sent and not
yet answered by a `project_state` callback, and `projectStateEmits` /
`events` record the `projectStateChanged` / `eventReceived` signal
emissions. -/
structure Bridge where
  latest_project_state : List (String × PyVal)
  last_timeline_info : List (String × PyVal)
  timeline_state : List (String × PyVal)
  state_refresh_pending : Bool
  hasPage : Bool
  queuedTasks : Nat
  outstanding : Nat
  sent : List JsCmd
  projectStateEmits : List PyVal
  events : List (String × List PyVal)

/-- The `_timeline_state` dictionary as the constructor initializes it
(timeline_widget.py lines 31-39). -/
def initialTimelineState : List (String × PyVal) :=
  [("fps", .vdict [("num", .vint 24), ("den", .vint 1)]),
   ("layers", .vlist []),
   ("clips", .vlist []),
   ("effects", .vlist []),
   ("markers", .vlist []),
   ("duration", .vint 0),
   ("playhead_position", .vnum 0)]

/-- `TimelineBridge.__init__` (timeline_widget.py lines 26-40); `hasPage`
records whether the view it was constructed over has a live page. -/
def initialBridge (hasPage : Bool) : Bridge :=
  { latest_project_state := []
    last_timeline_info := []
    timeline_state := initialTimelineState
    state_refresh_pending := false
    hasPage := hasPage
    queuedTasks := 0
    outstanding := 0
    sent := []
    projectStateEmits := []
    events := [] }

/-- `TimelineBridge._run_js` (lines 248-251): execute the script only when
the view has a page, otherwise drop the command silently. -/
def runJs (b : Bridge) (cmd : JsCmd) : Bridge :=
  if b.hasPage then { b with sent := b.sent ++ [cmd] } else b

/-- The dictionary `_apply_project_state` rebuilds `_timeline_state` from
(lines 315-325): each field read from the new state with `.get` and its
per-field default. -/
def buildTimelineState (es : List (String × PyVal)) : List (String × PyVal) :=
  [("fps", dictGet es "fps" (.vdict [])),
   ("layers", dictGet es "layers" (.vlist [])),
   ("clips", dictGet es "clips" (.vlist [])),
   ("effects", dictGet es "effects" (.vlist [])),
   ("markers", dictGet es "markers" (.vlist [])),
   ("duration", dictGet es "duration" (.vint 0)),
   ("playhead_position", dictGet es "playhead_position" (.vnum 0))]

/-- Success path of `TimelineBridge._apply_project_state` (lines 312-326)
for a state that is a dict (after the `state or {}` substitution):
wholesale replacement of `_latest_project_state` and `_timeline_state`,
then `_state_refresh_pending = False`. -/
def applyProjectStateDict (b : Bridge) (es : List (String × PyVal)) : Bridge :=
  { b with
    latest_project_state := es
    timeline_state := buildTimelineState es
    state_refresh_pending := false }

/-- `TimelineBridge._apply_project_state` (lines 312-326) on an arbitrary
payload: `state or {}` turns any falsy payload into the empty dict; a
truthy non-dict payload makes `self._latest_project_state.get(...)` raise
`AttributeError` (the assignment on line 314 succeeds for any payload, so
the exception escapes `_apply_project_state`). -/
def applyProjectState (b : Bridge) (state : PyVal) : Except String Bridge :=
  let s := if isFalsy state then PyVal.vdict [] else state
  match s with
  | .vdict es => .ok (applyProjectStateDict b es)
  | _ => .error "AttributeError"

/-- `TimelineBridge._queue_state_refresh` (lines 301-310): a no-op while
`_state_refresh_pending` is set, otherwise set the flag and schedule one
zero-delay `QTimer.singleShot` task that will run
`request_project_state`. -/
def queueStateRefresh (b : Bridge) : Bridge :=
  if b.state_refresh_pending then b
  else { b with state_refresh_pending := true, queuedTasks := b.queuedTasks + 1 }

/-- `TimelineBridge.request_project_state` (lines 238-241): set the pending
flag, then ask the page to emit the project state; the request is only
outstanding when the page exists to receive it. -/
def request_project_state (b : Bridge) : Bridge :=
  let b1 := { b with state_refresh_pending := true }
  if b1.hasPage then
    { b1 with sent := b1.sent ++ [JsCmd.emitProjectState],
              outstanding := b1.outstanding + 1 }
  else b1

/-- Running one deferred `QTimer.singleShot` task queued by
`_queue_state_refresh` (lines 307-310): the task body calls
`request_project_state`. -/
def runDeferredTask (b : Bridge) : Bridge :=
  if b.queuedTasks = 0 then b
  else request_project_state { b with queuedTasks := b.queuedTasks - 1 }

/-- `TimelineBridge._handle_js_event` (lines 296-299): the four JS-driven
mutation events trigger the refresh debouncer. -/
def handleJsEvent (b : Bridge) (method : String) : Bridge :=
  if method = "update_clip_data" ∨ method = "removeClip" ∨
     method = "removeTrack" ∨ method = "addTrack"
  then queueStateRefresh b else b

/-- `TimelineBridge.invoke` (lines 55-79). `parse` stands for the standard
library's `json.loads`, returning `none` exactly when it raises
`json.JSONDecodeError`. Returns the updated bridge and the slot's return
value, or the uncaught Python exception. -/
def invoke (parse : String → Option PyVal) (b : Bridge) (method : String)
    (args : List PyVal) : Except String (Bridge × Option PyVal) :=
  let py_args := convertVariantList args
  if method = "project_state" then
    let state_payload := py_args.headD (.vdict [])
    let state : PyVal :=
      match state_payload with
      | .vstr s =>
          match parse s with
          | some v => v
          | none => .vdict []
      | .vdict es => .vdict es
      | _ => .vdict []
    match applyProjectState b state with
    | .error e => .error e
    | .ok b1 =>
        .ok ({ b1 with
                projectStateEmits := b1.projectStateEmits ++ [state],
                events := b1.events ++ [(method, [state])] },
             some state)
  else
    let b1 := handleJsEvent b method
    .ok ({ b1 with events := b1.events ++ [(method, py_args)] }, none)

/-- `TimelineBridge.add_clip` (lines 82-85). -/
def add_clip (b : Bridge) (clip : List (String × PyVal)) : Bridge :=
  queueStateRefresh (runJs b (.addClip clip))

/-- `TimelineBridge.add_track` (lines 87-90). -/
def add_track (b : Bridge) (track : List (String × PyVal)) : Bridge :=
  queueStateRefresh (runJs b (.addTrack track))

/-- `TimelineBridge.remove_track` (lines 92-103). -/
def remove_track (b : Bridge) (ident : PyVal) (keepClips allowShrink : Bool) :
    Bridge :=
  queueStateRefresh (runJs b (.removeTrack ident keepClips allowShrink))

/-- `TimelineBridge.remove_clip` (lines 105-108). -/
def remove_clip (b : Bridge) (clipId : String) : Bridge :=
  queueStateRefresh (runJs b (.removeClip clipId))

/-- `TimelineBridge.update_clip` (lines 110-115). -/
def update_clip (b : Bridge) (clipId : String) (patch : List (String × PyVal)) :
    Bridge :=
  queueStateRefresh (runJs b (.updateClip clipId patch))

/-- `TimelineBridge.move_clip` (lines 117-131). -/
def move_clip (b : Bridge) (clipId : String) (layer : Option PyVal)
    (position : Option ℚ) (options : List (String × PyVal)) : Bridge :=
  queueStateRefresh (runJs b (.moveClip clipId layer position options))

/-- `TimelineBridge.set_playhead_playing` (lines 133-147). -/
def set_playhead_playing (b : Bridge) (playing : Bool) (startAt : Option ℚ) :
    Bridge :=
  runJs b (.setPlayheadPlaying playing startAt)

/-- `TimelineBridge.play_playhead` (lines 149-151). -/
def play_playhead (b : Bridge) (startAt : Option ℚ) : Bridge :=
  set_playhead_playing b true startAt

/-- `TimelineBridge.pause_playhead` (lines 153-155). -/
def pause_playhead (b : Bridge) : Bridge :=
  set_playhead_playing b false none

/-- `TimelineBridge.toggle_playhead` (lines 157-159). -/
def toggle_playhead (b : Bridge) : Bridge :=
  runJs b .togglePlayhead

/-- `TimelineBridge.set_clip_color` (lines 161-169). -/
def set_clip_color (b : Bridge) (clipId color : String)
    (textColor : Option String) : Bridge :=
  queueStateRefresh (runJs b (.setClipColor clipId color textColor))

/-- `TimelineBridge.set_project_state` (lines 171-177): push the state to
the page, then apply it locally through `_apply_project_state` (the
argument is a dict by the slot's signature, so the dict path applies). -/
def set_project_state (b : Bridge) (projectState : List (String × PyVal)) :
    Bridge :=
  applyProjectStateDict (runJs b (.setProjectState projectState)) projectState

/-- `TimelineBridge.get_cached_timeline_state` (lines 200-202): a deep copy
of `_timeline_state`; on the immutable value model the copy is the value
itself (object identity is treated in the `PObj` model below). -/
def get_cached_timeline_state (b : Bridge) : List (String × PyVal) :=
  b.timeline_state

/-- `TimelineBridge.move_playhead` (lines 243-245). -/
def move_playhead (b : Bridge) (seconds : ℚ) : Bridge :=
  runJs b (.movePlayhead seconds)

/-- Observable outcome of one `_evaluate_js` call: the returned value plus
whether a timeout timer was started, the local event loop entered, and
the script handed to `page.runJavaScript`. -/
structure EvalOutcome where
  value : PyVal
  timerStarted : Bool
  loopEntered : Bool
  scriptRun : Bool

/-- `TimelineBridge._evaluate_js` (lines 253-282). `resp = some v` means
the page's callback delivered `v` before the 2000 ms timer fired;
`resp = none` means the timer won the race, leaving the default in
`result`. With no page the call returns the default immediately, before
the timer, loop and script-execution machinery is touched; otherwise the
resolved value passes through `_convert_variant`. -/
def evaluateJs (hasPage : Bool) (resp : Option PyVal) (defaultVal : PyVal) :
    EvalOutcome :=
  if hasPage then
    match resp with
    | some v => ⟨convertVariant v, true, true, true⟩
    | none => ⟨convertVariant defaultVal, true, true, true⟩
  else ⟨defaultVal, false, false, false⟩

/-- The augmentation step inside `get_timeline_info` (lines 188-189): when
the cached `_latest_project_state` is non-empty and the fetched info has
no `project` key, a deep copy of the cached state is inserted under
`project` (a new key in a Python dict is appended in insertion order). -/
def augmentInfo (b : Bridge) (es : List (String × PyVal)) :
    List (String × PyVal) :=
  if ¬ b.latest_project_state.isEmpty ∧ (dictLookup es "project").isNone
  then es ++ [("project", .vdict b.latest_project_state)]
  else es

/-- `TimelineBridge.get_timeline_info` (lines 178-198). `resp` is the
page's answer to `collectTimelineInfo` as in `evaluateJs` (default
`None`). Returns the updated bridge and the returned dictionary. -/
def get_timeline_info (b : Bridge) (resp : Option PyVal) :
    Bridge × List (String × PyVal) :=
  let info_obj := (evaluateJs b.hasPage resp .vnone).value
  match info_obj with
  | .vdict es =>
      let info := augmentInfo b es
      let b1 := { b with last_timeline_info := info }
      match dictLookup info "project" with
      | some (.vdict p) => (applyProjectStateDict b1 p, info)
      | _ => (b1, info)
  | _ =>
      if ¬ b.last_timeline_info.isEmpty then (b, b.last_timeline_info)
      else if ¬ b.latest_project_state.isEmpty then
        (b, [("project", .vdict b.latest_project_state)])
      else (b, [])

/-- The three shapes `set_timeline_frame_rate` accepts: a `(num, den)`
tuple, a dict with `num` / `den` entries, or a plain number. The tuple
and dict entries are the integer components of the rational pair
(§3/§6 of the spec), so Python's `int(...)` coercion is the identity on
them; a plain rate is a number, on which `float(...)` is the identity. -/
inductive FpsArg where
  | tup : Int → Int → FpsArg
  | mapping : List (String × Int) → FpsArg
  | plain : ℚ → FpsArg

/-- First-match association lookup for the integer-valued `num`/`den`
dict. -/
def intLookup : List (String × Int) → String → Option Int
  | [], _ => none
  | (k, v) :: rest, key => if k = key then some v else intLookup rest key

/-- The payload computation of `TimelineBridge.set_timeline_frame_rate`
(lines 204-227): tuple dens of 0 become 1; dict entries go through
`fps.get("num", 0) or 0` and `fps.get("den", 1) or 1` (Python `or`
replaces a falsy 0 by the right operand) followed by the explicit
`den == 0` correction; a plain number is passed through `float`. -/
def frameRatePayload : FpsArg → PyVal
  | .tup num den =>
      .vdict [("num", .vint num), ("den", .vint (if den ≠ 0 then den else 1))]
  | .mapping es =>
      let num0 := (intLookup es "num").getD 0
      let num := if num0 = 0 then 0 else num0
      let den0 := (intLookup es "den").getD 1
      let den1 := if den0 = 0 then 1 else den0
      let den := if den1 = 0 then 1 else den1
      .vdict [("num", .vint num), ("den", .vint den)]
  | .plain x => .vnum x

/-- `TimelineBridge.set_timeline_frame_rate` (lines 204-229). -/
def set_timeline_frame_rate (b : Bridge) (fps : FpsArg) : Bridge :=
  runJs b (.setFrameRate (frameRatePayload fps))

/-- `TimelineBridge.resize_timeline` (lines 231-236). -/
def resize_timeline (b : Bridge) (duration : ℚ) (allowShrink : Bool) : Bridge :=
  runJs b (.resizeTimeline duration allowShrink)

/-- Events of the refresh-debouncer loop on one bridge instance: a trigger
of `_queue_state_refresh` (from any outbound mutating operation or
inbound mutation event), the run of a queued zero-delay deferred task,
and the page answering an outstanding `emitProjectState` request by
calling `invoke("project_state", [payload])`. -/
inductive RefreshEvent where
  | trigger : RefreshEvent
  | fire : RefreshEvent
  | answer : List (String × PyVal) → RefreshEvent

/-- One step of the refresh-debouncer loop, each event routed to the
corresponding source operation (`answer` goes through the full `invoke`
slot; a dict payload never raises there). -/
def refreshStep (b : Bridge) : RefreshEvent → Bridge
  | .trigger => queueStateRefresh b
  | .fire => runDeferredTask b
  | .answer ps =>
      if b.outstanding = 0 then b
      else
        match invoke (fun _ => none) { b with outstanding := b.outstanding - 1 }
            "project_state" [.vdict ps] with
        | .ok (b', _) => b'
        | .error _ => b

/-- A whole run of the refresh-debouncer loop from a freshly constructed
bridge. -/
def runRefresh (hasPage : Bool) (evts : List RefreshEvent) : Bridge :=
  evts.foldl refreshStep (initialBridge hasPage)

/-- The single-flight invariant of the debouncer: at most one refresh
request (queued deferred task or sent-but-unanswered `emitProjectState`)
exists, and none while the pending flag is down. -/
def RefreshInv (b : Bridge) : Prop :=
  b.queuedTasks + b.outstanding ≤ 1 ∧
  (b.state_refresh_pending = false → b.queuedTasks + b.outstanding = 0)

theorem invoke_project_state_dict (parse : String → Option PyVal) (b : Bridge)
    (ps : List (String × PyVal)) :
    invoke parse b "project_state" [.vdict ps] =
      .ok ({ applyProjectStateDict b ps with
              projectStateEmits := b.projectStateEmits ++ [.vdict ps],
              events := b.events ++ [("project_state", [.vdict ps])] },
           some (.vdict ps)) := by
  by_cases h : ps.isEmpty
  · rw [List.isEmpty_iff] at h
    subst h
    simp [invoke, convertVariantList_id, applyProjectState, isFalsy,
      applyProjectStateDict]
  · simp [invoke, convertVariantList_id, applyProjectState, isFalsy, h,
      applyProjectStateDict]

theorem refreshStep_inv (b : Bridge) (e : RefreshEvent) (h : RefreshInv b) :
    RefreshInv (refreshStep b e) := by
  obtain ⟨hle, hzero⟩ := h
  cases e with
  | trigger =>
      by_cases hp : b.state_refresh_pending = true
      · have h1 : refreshStep b .trigger = b := by
          simp [refreshStep, queueStateRefresh, hp]
        rw [h1]
        exact ⟨hle, hzero⟩
      · have h0 : b.queuedTasks + b.outstanding = 0 := hzero (by simpa using hp)
        unfold RefreshInv
        refine ⟨?_, ?_⟩
        · simp [refreshStep, queueStateRefresh, hp]
          omega
        · intro hf
          simp [refreshStep, queueStateRefresh, hp] at hf
  | fire =>
      by_cases hq : b.queuedTasks = 0
      · have h1 : refreshStep b .fire = b := by
          simp [refreshStep, runDeferredTask, hq]
        rw [h1]
        exact ⟨hle, hzero⟩
      · unfold RefreshInv
        by_cases hpage : b.hasPage = true
        · refine ⟨?_, ?_⟩
          · simp [refreshStep, runDeferredTask, hq, request_project_state, hpage]
            omega
          · intro hf
            simp [refreshStep, runDeferredTask, hq, request_project_state,
              hpage] at hf
        · refine ⟨?_, ?_⟩
          · simp [refreshStep, runDeferredTask, hq, request_project_state, hpage]
            omega
          · intro hf
            simp [refreshStep, runDeferredTask, hq, request_project_state,
              hpage] at hf
  | answer ps =>
      by_cases ho : b.outstanding = 0
      · have h1 : refreshStep b (.answer ps) = b := by
          simp [refreshStep, ho]
        rw [h1]
        exact ⟨hle, hzero⟩
      · unfold RefreshInv
        refine ⟨?_, ?_⟩
        · simp [refreshStep, ho, invoke_project_state_dict,
            applyProjectStateDict]
          omega
        · intro hf
          simp [refreshStep, ho, invoke_project_state_dict,
            applyProjectStateDict] at hf ⊢
          omega

theorem runRefresh_inv (hasPage : Bool) (evts : List RefreshEvent) :
    RefreshInv (runRefresh hasPage evts) := by
  have hinit : RefreshInv (initialBridge hasPage) := by
    constructor <;> simp [initialBridge]
  rw [runRefresh]
  generalize initialBridge hasPage = b at hinit
  induction evts generalizing b with
  | nil => simpa using hinit
  | cons e rest ih =>
      simp only [List.foldl_cons]
      exact ih _ (refreshStep_inv b e hinit)

/-- One operation applied to a bridge instance: every public outbound
helper, the run of a queued deferred task, and an inbound `invoke`
callback. Evaluating reads carry the page's response as in
`evaluateJs`. -/
inductive HostOp where
  | opAddClip : List (String × PyVal) → HostOp
  | opAddTrack : List (String × PyVal) → HostOp
  | opRemoveTrack : PyVal → Bool → Bool → HostOp
  | opRemoveClip : String → HostOp
  | opUpdateClip : String → List (String × PyVal) → HostOp
  | opMoveClip : String → Option PyVal → Option ℚ → List (String × PyVal) →
      HostOp
  | opSetPlayheadPlaying : Bool → Option ℚ → HostOp
  | opPlayPlayhead : Option ℚ → HostOp
  | opPausePlayhead : HostOp
  | opTogglePlayhead : HostOp
  | opSetClipColor : String → String → Option String → HostOp
  | opSetProjectState : List (String × PyVal) → HostOp
  | opGetTimelineInfo : Option PyVal → HostOp
  | opSetTimelineFrameRate : FpsArg → HostOp
  | opResizeTimeline : ℚ → Bool → HostOp
  | opRequestProjectState : HostOp
  | opMovePlayhead : ℚ → HostOp
  | opRunDeferredTask : HostOp
  | opInvoke : String → List PyVal → HostOp

/-- Apply one operation to the bridge; the result is the exception when
the operation raises (only `invoke` can). -/
def stepOp (parse : String → Option PyVal) (b : Bridge) :
    HostOp → Except String Bridge
  | .opAddClip c => .ok (add_clip b c)
  | .opAddTrack t => .ok (add_track b t)
  | .opRemoveTrack i k s => .ok (remove_track b i k s)
  | .opRemoveClip i => .ok (remove_clip b i)
  | .opUpdateClip i p => .ok (update_clip b i p)
  | .opMoveClip i l p o => .ok (move_clip b i l p o)
  | .opSetPlayheadPlaying p s => .ok (set_playhead_playing b p s)
  | .opPlayPlayhead s => .ok (play_playhead b s)
  | .opPausePlayhead => .ok (pause_playhead b)
  | .opTogglePlayhead => .ok (toggle_playhead b)
  | .opSetClipColor i c t => .ok (set_clip_color b i c t)
  | .opSetProjectState ps => .ok (set_project_state b ps)
  | .opGetTimelineInfo resp => .ok (get_timeline_info b resp).1
  | .opSetTimelineFrameRate fps => .ok (set_timeline_frame_rate b fps)
  | .opResizeTimeline d s => .ok (resize_timeline b d s)
  | .opRequestProjectState => .ok (request_project_state b)
  | .opMovePlayhead s => .ok (move_playhead b s)
  | .opRunDeferredTask => .ok (runDeferredTask b)
  | .opInvoke m args => (invoke parse b m args).map Prod.fst

mutual

/-- Python heap objects for the object-identity model of `copy.deepcopy`:
scalars are immutable values, every dict and list object carries the
identity `oid` of the heap cell it lives in. Two trees that contain the
same `oid` alias the same mutable object. -/
inductive PObj where
  | prim : PyVal → PObj
  | pdict : Nat → PFields → PObj
  | plist : Nat → PItems → PObj

/-- Fields of a dict object, in insertion order. -/
inductive PFields where
  | fnil : PFields
  | fcons : String → PObj → PFields → PFields

/-- Items of a list object. -/
inductive PItems where
  | inil : PItems
  | icons : PObj → PItems → PItems

end

mutual

/-- `copy.deepcopy` on a heap object: rebuild the whole tree in fresh heap
cells, threading a fresh-identity counter. -/
def deepcopyObj : PObj → Nat → PObj × Nat
  | .prim v, n => (.prim v, n)
  | .pdict _ fs, n =>
      let r := deepcopyFields fs (n + 1)
      (.pdict n r.1, r.2)
  | .plist _ xs, n =>
      let r := deepcopyItems xs (n + 1)
      (.plist n r.1, r.2)

/-- `deepcopy` threaded through dict fields. -/
def deepcopyFields : PFields → Nat → PFields × Nat
  | .fnil, n => (.fnil, n)
  | .fcons k v rest, n =>
      let rv := deepcopyObj v n
      let rr := deepcopyFields rest rv.2
      (.fcons k rv.1 rr.1, rr.2)

/-- `deepcopy` threaded through list items. -/
def deepcopyItems : PItems → Nat → PItems × Nat
  | .inil, n => (.inil, n)
  | .icons v rest, n =>
      let rv := deepcopyObj v n
      let rr := deepcopyItems rest rv.2
      (.icons rv.1 rr.1, rr.2)

end

mutual

/-- The heap identities owned by a tree. -/
def idsObj : PObj → List Nat
  | .prim _ => []
  | .pdict i fs => i :: idsFields fs
  | .plist i xs => i :: idsItems xs

/-- Identities inside dict fields. -/
def idsFields : PFields → List Nat
  | .fnil => []
  | .fcons _ v rest => idsObj v ++ idsFields rest

/-- Identities inside list items. -/
def idsItems : PItems → List Nat
  | .inil => []
  | .icons v rest => idsObj v ++ idsItems rest

end

mutual

/-- The pure structural value of a heap object (identity forgotten). -/
def stripObj : PObj → PyVal
  | .prim v => v
  | .pdict _ fs => .vdict (stripFields fs)
  | .plist _ xs => .vlist (stripItems xs)

/-- Structural value of dict fields. -/
def stripFields : PFields → List (String × PyVal)
  | .fnil => []
  | .fcons k v rest => (k, stripObj v) :: stripFields rest

/-- Structural value of list items. -/
def stripItems : PItems → List PyVal
  | .inil => []
  | .icons v rest => stripObj v :: stripItems rest

end

mutual

/-- A mutation through an alias: `obj[k] = w` performed on the dict object
whose heap identity is `target`, wherever that object is reachable. -/
def setItemObj (target : Nat) (k : String) (w : PyVal) : PObj → PObj
  | .prim v => .prim v
  | .pdict i fs =>
      let fs1 := setItemFields target k w fs
      .pdict i (if i = target then .fcons k (.prim w) fs1 else fs1)
  | .plist i xs => .plist i (setItemItems target k w xs)

/-- The mutation threaded through dict fields. -/
def setItemFields (target : Nat) (k : String) (w : PyVal) : PFields → PFields
  | .fnil => .fnil
  | .fcons k0 v rest =>
      .fcons k0 (setItemObj target k w v) (setItemFields target k w rest)

/-- The mutation threaded through list items. -/
def setItemItems (target : Nat) (k : String) (w : PyVal) : PItems → PItems
  | .inil => .inil
  | .icons v rest =>
      .icons (setItemObj target k w v) (setItemItems target k w rest)

end

mutual

theorem strip_deepcopyObj : (t : PObj) → (n : Nat) →
    stripObj (deepcopyObj t n).1 = stripObj t
  | .prim _, _ => by simp [deepcopyObj]
  | .pdict i fs, n => by
      simp [deepcopyObj, stripObj, strip_deepcopyFields fs (n + 1)]
  | .plist i xs, n => by
      simp [deepcopyObj, stripObj, strip_deepcopyItems xs (n + 1)]

theorem strip_deepcopyFields : (fs : PFields) → (n : Nat) →
    stripFields (deepcopyFields fs n).1 = stripFields fs
  | .fnil, _ => by simp [deepcopyFields]
  | .fcons k v rest, n => by
      simp [deepcopyFields, stripFields, strip_deepcopyObj v n,
        strip_deepcopyFields rest (deepcopyObj v n).2]

theorem strip_deepcopyItems : (xs : PItems) → (n : Nat) →
    stripItems (deepcopyItems xs n).1 = stripItems xs
  | .inil, _ => by simp [deepcopyItems]
  | .icons v rest, n => by
      simp [deepcopyItems, stripItems, strip_deepcopyObj v n,
        strip_deepcopyItems rest (deepcopyObj v n).2]

end

mutual

theorem deepcopyObj_counter_le : (t : PObj) → (n : Nat) →
    n ≤ (deepcopyObj t n).2
  | .prim _, _ => by simp [deepcopyObj]
  | .pdict i fs, n => by
      have h := deepcopyFields_counter_le fs (n + 1)
      simp [deepcopyObj]
      omega
  | .plist i xs, n => by
      have h := deepcopyItems_counter_le xs (n + 1)
      simp [deepcopyObj]
      omega

theorem deepcopyFields_counter_le : (fs : PFields) → (n : Nat) →
    n ≤ (deepcopyFields fs n).2
  | .fnil, _ => by simp [deepcopyFields]
  | .fcons k v rest, n => by
      have h1 := deepcopyObj_counter_le v n
      have h2 := deepcopyFields_counter_le rest (deepcopyObj v n).2
      simp [deepcopyFields]
      omega

theorem deepcopyItems_counter_le : (xs : PItems) → (n : Nat) →
    n ≤ (deepcopyItems xs n).2
  | .inil, _ => by simp [deepcopyItems]
  | .icons v rest, n => by
      have h1 := deepcopyObj_counter_le v n
      have h2 := deepcopyItems_counter_le rest (deepcopyObj v n).2
      simp [deepcopyItems]
      omega

end

mutual

theorem deepcopyObj_ids_range : (t : PObj) → (n : Nat) → (i : Nat) →
    i ∈ idsObj (deepcopyObj t n).1 → n ≤ i ∧ i < (deepcopyObj t n).2
  | .prim _, _, i => by simp [deepcopyObj, idsObj]
  | .pdict j fs, n, i => by
      simp only [deepcopyObj, idsObj, List.mem_cons]
      intro h
      have hc := deepcopyFields_counter_le fs (n + 1)
      rcases h with h | h
      · subst h
        omega
      · have := deepcopyFields_ids_range fs (n + 1) i h
        omega
  | .plist j xs, n, i => by
      simp only [deepcopyObj, idsObj, List.mem_cons]
      intro h
      have hc := deepcopyItems_counter_le xs (n + 1)
      rcases h with h | h
      · subst h
        omega
      · have := deepcopyItems_ids_range xs (n + 1) i h
        omega

theorem deepcopyFields_ids_range : (fs : PFields) → (n : Nat) → (i : Nat) →
    i ∈ idsFields (deepcopyFields fs n).1 → n ≤ i ∧ i < (deepcopyFields fs n).2
  | .fnil, n, i => by simp [deepcopyFields, idsFields]
  | .fcons k v rest, n, i => by
      simp only [deepcopyFields, idsFields, List.mem_append]
      intro h
      have hc1 := deepcopyObj_counter_le v n
      have hc2 := deepcopyFields_counter_le rest (deepcopyObj v n).2
      rcases h with h | h
      · have := deepcopyObj_ids_range v n i h
        omega
      · have := deepcopyFields_ids_range rest (deepcopyObj v n).2 i h
        omega

theorem deepcopyItems_ids_range : (xs : PItems) → (n : Nat) → (i : Nat) →
    i ∈ idsItems (deepcopyItems xs n).1 → n ≤ i ∧ i < (deepcopyItems xs n).2
  | .inil, n, i => by simp [deepcopyItems, idsItems]
  | .icons v rest, n, i => by
      simp only [deepcopyItems, idsItems, List.mem_append]
      intro h
      have hc1 := deepcopyObj_counter_le v n
      have hc2 := deepcopyItems_counter_le rest (deepcopyObj v n).2
      rcases h with h | h
      · have := deepcopyObj_ids_range v n i h
        omega
      · have := deepcopyItems_ids_range rest (deepcopyObj v n).2 i h
        omega

end

mutual

theorem setItemObj_absent : (t : PObj) → (target : Nat) → (k : String) →
    (w : PyVal) → target ∉ idsObj t → setItemObj target k w t = t
  | .prim _, _, _, _ => by simp [setItemObj]
  | .pdict i fs, target, k, w => by
      simp only [idsObj, List.mem_cons, not_or]
      intro h
      obtain ⟨hne, hfs⟩ := h
      have hit : ¬ i = target := fun hc => hne hc.symm
      simp [setItemObj, hit, setItemFields_absent fs target k w hfs]
  | .plist i xs, target, k, w => by
      simp only [idsObj, List.mem_cons, not_or]
      intro h
      obtain ⟨hne, hxs⟩ := h
      simp [setItemObj, setItemItems_absent xs target k w hxs]

theorem setItemFields_absent : (fs : PFields) → (target : Nat) → (k : String) →
    (w : PyVal) → target ∉ idsFields fs → setItemFields target k w fs = fs
  | .fnil, _, _, _ => by simp [setItemFields]
  | .fcons k0 v rest, target, k, w => by
      simp only [idsFields, List.mem_append, not_or]
      intro h
      obtain ⟨hv, hrest⟩ := h
      simp [setItemFields, setItemObj_absent v target k w hv,
        setItemFields_absent rest target k w hrest]

theorem setItemItems_absent : (xs : PItems) → (target : Nat) → (k : String) →
    (w : PyVal) → target ∉ idsItems xs → setItemItems target k w xs = xs
  | .inil, _, _, _ => by simp [setItemItems]
  | .icons v rest, target, k, w => by
      simp only [idsItems, List.mem_append, not_or]
      intro h
      obtain ⟨hv, hrest⟩ := h
      simp [setItemItems, setItemObj_absent v target k w hv,
        setItemItems_absent rest target k w hrest]

end

/-- `TimelineBridge.get_cached_timeline_state` (lines 200-202) in the
object-identity model: `copy.deepcopy(self._timeline_state)`, allocating
the copy in fresh heap cells. -/
def getCachedTimelineStateCopy (cache : PObj) (fresh : Nat) : PObj × Nat :=
  deepcopyObj cache fresh

theorem runJs_state_refresh_pending (b : Bridge) (c : JsCmd) :
    (runJs b c).state_refresh_pending = b.state_refresh_pending := by
  unfold runJs
  split <;> rfl

theorem runJs_queuedTasks (b : Bridge) (c : JsCmd) :
    (runJs b c).queuedTasks = b.queuedTasks := by
  unfold runJs
  split <;> rfl

theorem queueStateRefresh_pending (b : Bridge) :
    (queueStateRefresh b).state_refresh_pending = true := by
  unfold queueStateRefresh
  split
  · assumption
  · rfl

theorem queueStateRefresh_queuedTasks (b : Bridge) :
    (queueStateRefresh b).queuedTasks =
      if b.state_refresh_pending then b.queuedTasks else b.queuedTasks + 1 := by
  unfold queueStateRefresh
  split <;> simp_all

theorem request_project_state_pending (b : Bridge) :
    (request_project_state b).state_refresh_pending = true := by
  by_cases h : b.hasPage = true <;> simp [request_project_state, h]

theorem request_project_state_queuedTasks (b : Bridge) :
    (request_project_state b).queuedTasks = b.queuedTasks := by
  by_cases h : b.hasPage = true <;> simp [request_project_state, h]

theorem handleJsEvent_pending (b : Bridge) (m : String)
    (h : b.state_refresh_pending = true) :
    (handleJsEvent b m).state_refresh_pending = true := by
  unfold handleJsEvent
  split
  · exact queueStateRefresh_pending b
  · exact h

/-- C1: a trigger of `_queue_state_refresh` while `_state_refresh_pending`
is already set leaves the bridge state entirely unchanged; a trigger
while the flag is down sets it and schedules exactly one deferred
`request_project_state` task (and issues nothing else); and along every
sequence of debouncer events (triggers, deferred-task runs, inbound
`project_state` answers) from a fresh bridge, at most one refresh request
— queued deferred task or sent-but-unanswered `emitProjectState` — is
outstanding at any time. -/
theorem C1_refresh_debounce_single_flight :
    (∀ b : Bridge, b.state_refresh_pending = true → queueStateRefresh b = b) ∧
    (∀ b : Bridge, b.state_refresh_pending = false →
      (queueStateRefresh b).state_refresh_pending = true ∧
      (queueStateRefresh b).queuedTasks = b.queuedTasks + 1 ∧
      (queueStateRefresh b).outstanding = b.outstanding ∧
      (queueStateRefresh b).sent = b.sent) ∧
    (∀ (hasPage : Bool) (evts : List RefreshEvent),
      (runRefresh hasPage evts).queuedTasks +
        (runRefresh hasPage evts).outstanding ≤ 1) := by
  refine ⟨?_, ?_, ?_⟩
  · intro b hp
    simp [queueStateRefresh, hp]
  · intro b hp
    simp [queueStateRefresh, hp]
  · intro hasPage evts
    exact (runRefresh_inv hasPage evts).1

/-- Witness for C1 at concrete inputs: a second trigger on an
already-pending fresh bridge is the identity, a first trigger raises the
flag, and a concrete event trace respects the single-flight bound. -/
theorem C1_refresh_debounce_single_flight_witness :
    queueStateRefresh (queueStateRefresh (initialBridge true)) =
      queueStateRefresh (initialBridge true) ∧
    (queueStateRefresh (initialBridge true)).state_refresh_pending = true ∧
    (runRefresh true [.trigger, .trigger, .fire, .trigger, .answer []]).queuedTasks +
      (runRefresh true [.trigger, .trigger, .fire, .trigger, .answer []]).outstanding ≤ 1 :=
  ⟨C1_refresh_debounce_single_flight.1 (queueStateRefresh (initialBridge true)) rfl,
   (C1_refresh_debounce_single_flight.2.1 (initialBridge true) rfl).1,
   C1_refresh_debounce_single_flight.2.2 true
     [.trigger, .trigger, .fire, .trigger, .answer []]⟩

/-- C2 counterexample: apply `invoke("project_state", [{}])` to a fresh
bridge; the call succeeds and the cached state's `fps` entry becomes the
empty dict (the `.get("fps", {})` default of `_apply_project_state`),
not the frame-rate default 24/1 of the constructor that the claim
requires for absent fields. -/
theorem C2_counterexample_empty_payload_fps :
    invoke (fun _ => none) (initialBridge true) "project_state" [.vdict []] =
      .ok ({ applyProjectStateDict (initialBridge true) [] with
              projectStateEmits := [.vdict []],
              events := [("project_state", [.vdict []])] },
           some (.vdict [])) ∧
    dictLookup (get_cached_timeline_state
        { applyProjectStateDict (initialBridge true) [] with
            projectStateEmits := [.vdict []],
            events := [("project_state", [.vdict []])] }) "fps" =
      some (.vdict []) ∧
    PyVal.vdict [] ≠ PyVal.vdict [("num", .vint 24), ("den", .vint 1)] := by
  refine ⟨?_, ?_, ?_⟩
  · rw [invoke_project_state_dict]
    simp [initialBridge, applyProjectStateDict]
  · simp [get_cached_timeline_state, applyProjectStateDict, buildTimelineState,
      dictGet, dictLookup]
  · simp

/-- C2 amended: `invoke("project_state", [P])` with a mapping payload `P`
succeeds, returns `P`, and the subsequently read cache holds exactly the
seven entries read from `P`, each present field passed through and each
absent field replaced by its `_apply_project_state` default — empty
collections, zero duration, zero playhead, and the EMPTY DICT for `fps`
(the 24/1 frame-rate default exists only at construction). -/
theorem C2_amended_roundtrip_defaults (parse : String → Option PyVal)
    (b : Bridge) (P : List (String × PyVal)) :
    ∃ b' : Bridge,
      invoke parse b "project_state" [.vdict P] = .ok (b', some (.vdict P)) ∧
      get_cached_timeline_state b' = buildTimelineState P ∧
      dictLookup (get_cached_timeline_state b') "fps" =
        some (dictGet P "fps" (.vdict [])) ∧
      dictLookup (get_cached_timeline_state b') "layers" =
        some (dictGet P "layers" (.vlist [])) ∧
      dictLookup (get_cached_timeline_state b') "clips" =
        some (dictGet P "clips" (.vlist [])) ∧
      dictLookup (get_cached_timeline_state b') "effects" =
        some (dictGet P "effects" (.vlist [])) ∧
      dictLookup (get_cached_timeline_state b') "markers" =
        some (dictGet P "markers" (.vlist [])) ∧
      dictLookup (get_cached_timeline_state b') "duration" =
        some (dictGet P "duration" (.vint 0)) ∧
      dictLookup (get_cached_timeline_state b') "playhead_position" =
        some (dictGet P "playhead_position" (.vnum 0)) := by
  refine ⟨_, invoke_project_state_dict parse b P, ?_, ?_, ?_, ?_, ?_, ?_, ?_, ?_⟩
  all_goals
    simp [get_cached_timeline_state, applyProjectStateDict, buildTimelineState,
      dictLookup]

/-- C3 counterexample: from a bridge whose PendingRefresh flag is raised,
the host-initiated outbound operation `set_project_state` — not an
`invoke("project_state", ...)` callback — leaves the flag false. -/
theorem C3_counterexample_set_project_state_clears_flag :
    (queueStateRefresh (initialBridge true)).state_refresh_pending = true ∧
    (set_project_state (queueStateRefresh (initialBridge true))
        []).state_refresh_pending = false := by
  constructor <;> rfl

theorem runDeferredTask_pending (b : Bridge)
    (h : b.state_refresh_pending = true) :
    (runDeferredTask b).state_refresh_pending = true := by
  unfold runDeferredTask
  split
  · exact h
  · exact request_project_state_pending _


/-- C3 amended: a raised PendingRefresh flag goes false only through
`_apply_project_state`, i.e. only under one of `set_project_state`, an
`invoke("project_state", ...)` callback, or `get_timeline_info` (whose
fetched info can carry a `project` mapping that is re-applied); every
other operation leaves the flag raised. -/
theorem C3_amended_flag_cleared_only_by_apply (parse : String → Option PyVal)
    (b b' : Bridge) (op : HostOp)
    (hpend : b.state_refresh_pending = true)
    (hstep : stepOp parse b op = .ok b')
    (hclear : b'.state_refresh_pending = false) :
    (∃ ps, op = HostOp.opSetProjectState ps) ∨
    (∃ args, op = HostOp.opInvoke "project_state" args) ∨
    (∃ resp, op = HostOp.opGetTimelineInfo resp) := by
  cases op with
  | opSetProjectState ps => exact Or.inl ⟨ps, rfl⟩
  | opGetTimelineInfo resp => exact Or.inr (Or.inr ⟨resp, rfl⟩)
  | opInvoke m args =>
      by_cases hm : m = "project_state"
      · subst hm
        exact Or.inr (Or.inl ⟨args, rfl⟩)
      · exfalso
        simp only [stepOp, invoke, if_neg hm, Except.map, Except.ok.injEq]
          at hstep
        rw [← hstep] at hclear
        simp [handleJsEvent_pending b m hpend] at hclear
  | opAddClip c =>
      exfalso
      simp only [stepOp, Except.ok.injEq] at hstep
      rw [← hstep] at hclear
      simp [add_clip, queueStateRefresh_pending] at hclear
  | opAddTrack t =>
      exfalso
      simp only [stepOp, Except.ok.injEq] at hstep
      rw [← hstep] at hclear
      simp [add_track, queueStateRefresh_pending] at hclear
  | opRemoveTrack i k s =>
      exfalso
      simp only [stepOp, Except.ok.injEq] at hstep
      rw [← hstep] at hclear
      simp [remove_track, queueStateRefresh_pending] at hclear
  | opRemoveClip i =>
      exfalso
      simp only [stepOp, Except.ok.injEq] at hstep
      rw [← hstep] at hclear
      simp [remove_clip, queueStateRefresh_pending] at hclear
  | opUpdateClip i p =>
      exfalso
      simp only [stepOp, Except.ok.injEq] at hstep
      rw [← hstep] at hclear
      simp [update_clip, queueStateRefresh_pending] at hclear
  | opMoveClip i l p o =>
      exfalso
      simp only [stepOp, Except.ok.injEq] at hstep
      rw [← hstep] at hclear
      simp [move_clip, queueStateRefresh_pending] at hclear
  | opSetPlayheadPlaying p s =>
      exfalso
      simp only [stepOp, Except.ok.injEq] at hstep
      rw [← hstep] at hclear
      simp [set_playhead_playing, runJs_state_refresh_pending, hpend] at hclear
  | opPlayPlayhead s =>
      exfalso
      simp only [stepOp, Except.ok.injEq] at hstep
      rw [← hstep] at hclear
      simp [play_playhead, set_playhead_playing, runJs_state_refresh_pending,
        hpend] at hclear
  | opPausePlayhead =>
      exfalso
      simp only [stepOp, Except.ok.injEq] at hstep
      rw [← hstep] at hclear
      simp [pause_playhead, set_playhead_playing, runJs_state_refresh_pending,
        hpend] at hclear
  | opTogglePlayhead =>
      exfalso
      simp only [stepOp, Except.ok.injEq] at hstep
      rw [← hstep] at hclear
      simp [toggle_playhead, runJs_state_refresh_pending, hpend] at hclear
  | opSetClipColor i c t =>
      exfalso
      simp only [stepOp, Except.ok.injEq] at hstep
      rw [← hstep] at hclear
      simp [set_clip_color, queueStateRefresh_pending] at hclear
  | opSetTimelineFrameRate fps =>
      exfalso
      simp only [stepOp, Except.ok.injEq] at hstep
      rw [← hstep] at hclear
      simp [set_timeline_frame_rate, runJs_state_refresh_pending, hpend]
        at hclear
  | opResizeTimeline d s =>
      exfalso
      simp only [stepOp, Except.ok.injEq] at hstep
      rw [← hstep] at hclear
      simp [resize_timeline, runJs_state_refresh_pending, hpend] at hclear
  | opRequestProjectState =>
      exfalso
      simp only [stepOp, Except.ok.injEq] at hstep
      rw [← hstep] at hclear
      simp [request_project_state_pending] at hclear
  | opMovePlayhead s =>
      exfalso
      simp only [stepOp, Except.ok.injEq] at hstep
      rw [← hstep] at hclear
      simp [move_playhead, runJs_state_refresh_pending, hpend] at hclear
  | opRunDeferredTask =>
      exfalso
      simp only [stepOp, Except.ok.injEq] at hstep
      rw [← hstep] at hclear
      simp [runDeferredTask_pending b hpend] at hclear

/-- Witness for C3 amended: the concrete clearing operation
`set_project_state` on a pending bridge is classified into the allowed
set. -/
theorem C3_amended_flag_cleared_only_by_apply_witness :
    (∃ ps, HostOp.opSetProjectState ([] : List (String × PyVal)) =
      HostOp.opSetProjectState ps) ∨
    (∃ args, HostOp.opSetProjectState ([] : List (String × PyVal)) =
      HostOp.opInvoke "project_state" args) ∨
    (∃ resp, HostOp.opSetProjectState ([] : List (String × PyVal)) =
      HostOp.opGetTimelineInfo resp) :=
  C3_amended_flag_cleared_only_by_apply (fun _ => none)
    (queueStateRefresh (initialBridge true))
    (set_project_state (queueStateRefresh (initialBridge true)) [])
    (HostOp.opSetProjectState []) rfl rfl rfl

theorem get_timeline_info_queuedTasks (b : Bridge) (r : Option PyVal) :
    (get_timeline_info b r).1.queuedTasks = b.queuedTasks := by
  rw [get_timeline_info]
  cases hv : (evaluateJs b.hasPage r PyVal.vnone).value
  case vdict es =>
    simp only []
    cases hl : dictLookup (augmentInfo b es) "project"
    case none => simp [hl]
    case some v => cases v <;> simp [hl, applyProjectStateDict]
  all_goals
    simp only []
    split
    · rfl
    · split <;> rfl

/-- C4 counterexample: on a fresh bridge, `set_timeline_frame_rate`,
`resize_timeline` and `set_project_state` issue their command but
schedule no debounced refresh — no deferred task is queued and (for the
first two) the pending flag stays down — contradicting the claim that
every one of the ten listed mutating operations schedules one. -/
theorem C4_counterexample_three_ops_schedule_no_refresh :
    (set_timeline_frame_rate (initialBridge true) (.plain 30)).queuedTasks = 0 ∧
    (set_timeline_frame_rate (initialBridge true)
        (.plain 30)).state_refresh_pending = false ∧
    (resize_timeline (initialBridge true) 100 true).queuedTasks = 0 ∧
    (resize_timeline (initialBridge true) 100 true).state_refresh_pending =
      false ∧
    (set_project_state (initialBridge true)
        [("layers", .vlist [])]).queuedTasks = 0 := by
  refine ⟨rfl, rfl, rfl, rfl, rfl⟩

/-- C4 amended: the seven operations `add_track`, `add_clip`,
`remove_track`, `remove_clip`, `update_clip`, `move_clip` and
`set_clip_color` schedule a debounced refresh after issuing their command
(the flag goes up and, when it was down, exactly one deferred task is
queued); `set_project_state` applies the new state locally instead of
scheduling a refresh, and `set_timeline_frame_rate` and `resize_timeline`
issue their command with no refresh at all; the playback-control and
informational operations schedule none. -/
theorem C4_amended_refresh_scheduling :
    (∀ b c, (add_clip b c).state_refresh_pending = true ∧
      (add_clip b c).queuedTasks =
        (if b.state_refresh_pending then b.queuedTasks else b.queuedTasks + 1)) ∧
    (∀ b t, (add_track b t).state_refresh_pending = true ∧
      (add_track b t).queuedTasks =
        (if b.state_refresh_pending then b.queuedTasks else b.queuedTasks + 1)) ∧
    (∀ b i k s, (remove_track b i k s).state_refresh_pending = true ∧
      (remove_track b i k s).queuedTasks =
        (if b.state_refresh_pending then b.queuedTasks else b.queuedTasks + 1)) ∧
    (∀ b i, (remove_clip b i).state_refresh_pending = true ∧
      (remove_clip b i).queuedTasks =
        (if b.state_refresh_pending then b.queuedTasks else b.queuedTasks + 1)) ∧
    (∀ b i p, (update_clip b i p).state_refresh_pending = true ∧
      (update_clip b i p).queuedTasks =
        (if b.state_refresh_pending then b.queuedTasks else b.queuedTasks + 1)) ∧
    (∀ b i l p o, (move_clip b i l p o).state_refresh_pending = true ∧
      (move_clip b i l p o).queuedTasks =
        (if b.state_refresh_pending then b.queuedTasks else b.queuedTasks + 1)) ∧
    (∀ b i c t, (set_clip_color b i c t).state_refresh_pending = true ∧
      (set_clip_color b i c t).queuedTasks =
        (if b.state_refresh_pending then b.queuedTasks else b.queuedTasks + 1)) ∧
    (∀ b ps, (set_project_state b ps).queuedTasks = b.queuedTasks) ∧
    (∀ b fps, (set_timeline_frame_rate b fps).queuedTasks = b.queuedTasks ∧
      (set_timeline_frame_rate b fps).state_refresh_pending =
        b.state_refresh_pending) ∧
    (∀ b d s, (resize_timeline b d s).queuedTasks = b.queuedTasks ∧
      (resize_timeline b d s).state_refresh_pending =
        b.state_refresh_pending) ∧
    (∀ b p s, (set_playhead_playing b p s).queuedTasks = b.queuedTasks ∧
      (set_playhead_playing b p s).state_refresh_pending =
        b.state_refresh_pending) ∧
    (∀ b s, (play_playhead b s).queuedTasks = b.queuedTasks) ∧
    (∀ b, (pause_playhead b).queuedTasks = b.queuedTasks) ∧
    (∀ b, (toggle_playhead b).queuedTasks = b.queuedTasks) ∧
    (∀ b s, (move_playhead b s).queuedTasks = b.queuedTasks) ∧
    (∀ b, (request_project_state b).queuedTasks = b.queuedTasks) ∧
    (∀ b r, (get_timeline_info b r).1.queuedTasks = b.queuedTasks) := by
  refine ⟨?_, ?_, ?_, ?_, ?_, ?_, ?_, ?_, ?_, ?_, ?_, ?_, ?_, ?_, ?_, ?_, ?_⟩
  · intro b c
    exact ⟨queueStateRefresh_pending _,
      by rw [add_clip, queueStateRefresh_queuedTasks, runJs_queuedTasks,
        runJs_state_refresh_pending]⟩
  · intro b t
    exact ⟨queueStateRefresh_pending _,
      by rw [add_track, queueStateRefresh_queuedTasks, runJs_queuedTasks,
        runJs_state_refresh_pending]⟩
  · intro b i k s
    exact ⟨queueStateRefresh_pending _,
      by rw [remove_track, queueStateRefresh_queuedTasks, runJs_queuedTasks,
        runJs_state_refresh_pending]⟩
  · intro b i
    exact ⟨queueStateRefresh_pending _,
      by rw [remove_clip, queueStateRefresh_queuedTasks, runJs_queuedTasks,
        runJs_state_refresh_pending]⟩
  · intro b i p
    exact ⟨queueStateRefresh_pending _,
      by rw [update_clip, queueStateRefresh_queuedTasks, runJs_queuedTasks,
        runJs_state_refresh_pending]⟩
  · intro b i l p o
    exact ⟨queueStateRefresh_pending _,
      by rw [move_clip, queueStateRefresh_queuedTasks, runJs_queuedTasks,
        runJs_state_refresh_pending]⟩
  · intro b i c t
    exact ⟨queueStateRefresh_pending _,
      by rw [set_clip_color, queueStateRefresh_queuedTasks, runJs_queuedTasks,
        runJs_state_refresh_pending]⟩
  · intro b ps
    rw [set_project_state]
    simp [applyProjectStateDict, runJs_queuedTasks]
  · intro b fps
    exact ⟨runJs_queuedTasks _ _, runJs_state_refresh_pending _ _⟩
  · intro b d s
    exact ⟨runJs_queuedTasks _ _, runJs_state_refresh_pending _ _⟩
  · intro b p s
    exact ⟨runJs_queuedTasks _ _, runJs_state_refresh_pending _ _⟩
  · intro b s
    exact runJs_queuedTasks _ _
  · intro b
    exact runJs_queuedTasks _ _
  · intro b
    exact runJs_queuedTasks _ _
  · intro b s
    exact runJs_queuedTasks _ _
  · intro b
    exact request_project_state_queuedTasks _
  · intro b r
    exact get_timeline_info_queuedTasks b r

/-- C5: the claim that `invoke("project_state", args)` never propagates an
error is broken by a string payload that parses to a non-mapping — for
`"42"`, `json.loads` succeeds with the integer 42, which is truthy, so
`_apply_project_state` calls `.get` on an `int` and the resulting
`AttributeError` escapes `invoke` uncaught. -/
theorem C5_nonmapping_payload_raises (parse : String → Option PyVal)
    (b : Bridge) (h42 : parse "42" = some (.vint 42)) :
    invoke parse b "project_state" [.vstr "42"] = .error "AttributeError" := by
  simp [invoke, convertVariantList_id, h42, applyProjectState, isFalsy]

/-- A concrete stand-in for `json.loads` defined on the single input the
failing scenario needs. -/
def parseFortyTwo : String → Option PyVal :=
  fun s => if s = "42" then some (.vint 42) else none

/-- Witness for C5 at the failing input on a fresh bridge. -/
theorem C5_nonmapping_payload_raises_witness :
    invoke parseFortyTwo (initialBridge true) "project_state" [.vstr "42"] =
      .error "AttributeError" :=
  C5_nonmapping_payload_raises parseFortyTwo (initialBridge true)
    (by simp [parseFortyTwo])

/-- C6 counterexample: the fetch yields the mapping `{"a": 1}` while the
cached project state `{"x": 1}` is non-empty; the stored TimelineInfo is
the augmented mapping with the inserted `project` entry, not the fetched
mapping itself as the claim requires. -/
theorem C6_counterexample_stored_info_is_augmented :
    (get_timeline_info
        (applyProjectStateDict (initialBridge true) [("x", .vint 1)])
        (some (.vdict [("a", .vint 1)]))).1.last_timeline_info =
      [("a", .vint 1), ("project", .vdict [("x", .vint 1)])] ∧
    ([("a", PyVal.vint 1), ("project", PyVal.vdict [("x", PyVal.vint 1)])] :
        List (String × PyVal)) ≠ [("a", PyVal.vint 1)] := by
  constructor
  · rw [get_timeline_info]
    simp [evaluateJs, convertVariant_id, augmentInfo, dictLookup,
      applyProjectStateDict, initialBridge]
  · simp

/-- C6 amended: when the fresh fetch does not yield a mapping, the bridge
is unchanged and the result falls back, in priority order, to the last
good TimelineInfo, then to the last good ProjectState wrapped under
`project`, then to the empty mapping; when it does yield a mapping, that
mapping — augmented with the cached project state under `project` when
that key is absent and the cached state non-empty — becomes the new
cached TimelineInfo and is returned, and a `project` mapping inside it is
folded into the State Cache as a full replace. -/
theorem C6_amended_get_timeline_info (b : Bridge) (resp : Option PyVal) :
    ((∀ es, (evaluateJs b.hasPage resp .vnone).value ≠ .vdict es) →
      get_timeline_info b resp =
        (b, if ¬ b.last_timeline_info.isEmpty then b.last_timeline_info
            else if ¬ b.latest_project_state.isEmpty then
              [("project", .vdict b.latest_project_state)]
            else [])) ∧
    (∀ es, (evaluateJs b.hasPage resp .vnone).value = .vdict es →
      (get_timeline_info b resp).2 = augmentInfo b es ∧
      (get_timeline_info b resp).1.last_timeline_info = augmentInfo b es ∧
      (∀ p, dictLookup (augmentInfo b es) "project" = some (.vdict p) →
        (get_timeline_info b resp).1.latest_project_state = p ∧
        (get_timeline_info b resp).1.timeline_state = buildTimelineState p ∧
        (get_timeline_info b resp).1.state_refresh_pending = false) ∧
      ((∀ p, dictLookup (augmentInfo b es) "project" ≠ some (.vdict p)) →
        (get_timeline_info b resp).1 =
          { b with last_timeline_info := augmentInfo b es })) := by
  constructor
  · intro hnd
    rw [get_timeline_info]
    cases hv : (evaluateJs b.hasPage resp .vnone).value
    case vdict es => exact absurd hv (hnd es)
    all_goals
      simp only []
      split
      · simp [*]
      · split <;> simp [*]
  · intro es hv
    rw [get_timeline_info]
    rw [hv]
    simp only []
    refine ⟨?_, ?_, ?_, ?_⟩
    · cases hl : dictLookup (augmentInfo b es) "project"
      case none => simp [hl]
      case some v => cases v <;> simp [hl]
    · cases hl : dictLookup (augmentInfo b es) "project"
      case none => simp [hl]
      case some v => cases v <;> simp [hl, applyProjectStateDict]
    · intro p hp
      simp [hp, applyProjectStateDict]
    · intro hnp
      cases hl : dictLookup (augmentInfo b es) "project"
      case none => simp [hl]
      case some v =>
        cases v <;> simp [hl]
        exact absurd hl (hnp _)

/-- Witness for C6 amended on a fresh detached bridge whose fetch resolves
to the default `None`: the empty-mapping fallback. -/
theorem C6_amended_get_timeline_info_witness :
    get_timeline_info (initialBridge false) none =
      (initialBridge false,
       if ¬ (initialBridge false).last_timeline_info.isEmpty then
         (initialBridge false).last_timeline_info
       else if ¬ (initialBridge false).latest_project_state.isEmpty then
         [("project", .vdict (initialBridge false).latest_project_state)]
       else []) :=
  (C6_amended_get_timeline_info (initialBridge false) none).1
    (by intro es; simp [evaluateJs, initialBridge])

/-- C7: frame-rate normalization — a tuple or `{num, den}` mapping whose
den is 0 is transmitted with `den == 1`, a non-zero den and the num pass
through as their integer values, a plain rate is transmitted as
`float(fps)` unmodified, and the payload is what `set_timeline_frame_rate`
sends to the page. -/
theorem C7_frame_rate_normalization :
    (∀ num den : Int, den = 0 →
      frameRatePayload (.tup num den) =
        .vdict [("num", .vint num), ("den", .vint 1)]) ∧
    (∀ num den : Int, den ≠ 0 →
      frameRatePayload (.tup num den) =
        .vdict [("num", .vint num), ("den", .vint den)]) ∧
    (∀ es, intLookup es "den" = some 0 →
      frameRatePayload (.mapping es) =
        .vdict [("num", .vint ((intLookup es "num").getD 0)),
                ("den", .vint 1)]) ∧
    (∀ es den, intLookup es "den" = some den → den ≠ 0 →
      frameRatePayload (.mapping es) =
        .vdict [("num", .vint ((intLookup es "num").getD 0)),
                ("den", .vint den)]) ∧
    (∀ x : ℚ, frameRatePayload (.plain x) = .vnum x) ∧
    (∀ b fps, b.hasPage = true →
      (set_timeline_frame_rate b fps).sent =
        b.sent ++ [.setFrameRate (frameRatePayload fps)]) := by
  have hnum : ∀ es : List (String × Int),
      (if (intLookup es "num").getD 0 = 0 then 0
       else (intLookup es "num").getD 0) = (intLookup es "num").getD 0 := by
    intro es
    split
    · omega
    · rfl
  refine ⟨?_, ?_, ?_, ?_, ?_, ?_⟩
  · intro num den h
    simp [frameRatePayload, h]
  · intro num den h
    simp [frameRatePayload, h]
  · intro es h
    simp [frameRatePayload, h, hnum es]
  · intro es den h hne
    simp [frameRatePayload, h, hnum es, hne]
  · intro x
    rfl
  · intro b fps hp
    simp [set_timeline_frame_rate, runJs, hp]

/-- Witness for C7 at the spec's two concrete examples: the mapping
`num=5, den=0` transmits `den == 1`, and the plain rate 29.97 passes
through unchanged. -/
theorem C7_frame_rate_normalization_witness :
    frameRatePayload (.mapping [("num", 5), ("den", 0)]) =
      .vdict [("num", .vint 5), ("den", .vint 1)] ∧
    frameRatePayload (.plain (2997 / 100)) = .vnum (2997 / 100) := by
  constructor
  · have h := C7_frame_rate_normalization.2.2.1 [("num", 5), ("den", 0)]
      (by simp [intLookup])
    simpa [intLookup] using h
  · exact C7_frame_rate_normalization.2.2.2.2.1 (2997 / 100)

/-- C8: with no live page, `_evaluate_js` returns the supplied default
immediately — no timeout timer is started, no event loop entered, and the
script is never executed. -/
theorem C8_no_page_returns_default (resp : Option PyVal) (defaultVal : PyVal) :
    evaluateJs false resp defaultVal =
      { value := defaultVal, timerStarted := false, loopEntered := false,
        scriptRun := false } := by
  simp [evaluateJs]

/-- C9: `get_cached_timeline_state` performs a deep copy — two consecutive
reads with no intervening state change are structurally equal to the
cache and to each other, and the three trees own pairwise disjoint heap
cells, so a dict mutation through any object of one returned copy leaves
the other copy and the cache untouched. -/
theorem C9_deep_copy_on_read (cache : PObj) (n : Nat)
    (hwf : ∀ i ∈ idsObj cache, i < n) :
    stripObj (getCachedTimelineStateCopy cache n).1 = stripObj cache ∧
    stripObj (getCachedTimelineStateCopy cache
        (getCachedTimelineStateCopy cache n).2).1 = stripObj cache ∧
    (∀ j ∈ idsObj (getCachedTimelineStateCopy cache n).1, ∀ k w,
      setItemObj j k w (getCachedTimelineStateCopy cache
          (getCachedTimelineStateCopy cache n).2).1 =
        (getCachedTimelineStateCopy cache
          (getCachedTimelineStateCopy cache n).2).1 ∧
      setItemObj j k w cache = cache) ∧
    (∀ j ∈ idsObj (getCachedTimelineStateCopy cache
        (getCachedTimelineStateCopy cache n).2).1, ∀ k w,
      setItemObj j k w (getCachedTimelineStateCopy cache n).1 =
        (getCachedTimelineStateCopy cache n).1 ∧
      setItemObj j k w cache = cache) := by
  unfold getCachedTimelineStateCopy
  refine ⟨strip_deepcopyObj cache n, strip_deepcopyObj cache _, ?_, ?_⟩
  · intro j hj k w
    have hr1 := deepcopyObj_ids_range cache n j hj
    constructor
    · apply setItemObj_absent
      intro hmem
      have hr2 := deepcopyObj_ids_range cache (deepcopyObj cache n).2 j hmem
      omega
    · apply setItemObj_absent
      intro hmem
      have := hwf j hmem
      omega
  · intro j hj k w
    have hr2 := deepcopyObj_ids_range cache (deepcopyObj cache n).2 j hj
    have hc := deepcopyObj_counter_le cache n
    constructor
    · apply setItemObj_absent
      intro hmem
      have hr1 := deepcopyObj_ids_range cache n j hmem
      omega
    · apply setItemObj_absent
      intro hmem
      have := hwf j hmem
      omega

/-- A concrete one-entry cached timeline state living in heap cell 0. -/
def cacheCell : PObj := .pdict 0 (.fcons "duration" (.prim (.vint 0)) .fnil)

/-- Witness for C9 on the concrete cache: both consecutive reads are
structurally equal to the cache. -/
theorem C9_deep_copy_on_read_witness :
    stripObj (getCachedTimelineStateCopy cacheCell 1).1 = stripObj cacheCell ∧
    stripObj (getCachedTimelineStateCopy cacheCell
        (getCachedTimelineStateCopy cacheCell 1).2).1 = stripObj cacheCell :=
  ⟨(C9_deep_copy_on_read cacheCell 1 (by
      intro i hi
      simp [cacheCell, idsObj, idsFields] at hi
      omega)).1,
   (C9_deep_copy_on_read cacheCell 1 (by
      intro i hi
      simp [cacheCell, idsObj, idsFields] at hi
      omega)).2.1⟩

theorem dictLookup_append_absent (es : List (String × PyVal)) (k : String)
    (v : PyVal) (h : dictLookup es k = none) :
    dictLookup (es ++ [(k, v)]) k = some v := by
  induction es with
  | nil => simp [dictLookup]
  | cons e rest ih =>
      obtain ⟨k0, v0⟩ := e
      by_cases hk : k0 = k
      · simp [dictLookup, hk] at h
      · simp only [List.cons_append, dictLookup, if_neg hk] at h ⊢
        exact ih h

/-- C10: when the fetched timeline info is a mapping without a `project`
key and the cached project state is non-empty, `get_timeline_info`
inserts a copy of the cached state under `project` into the returned and
stored info, and re-applies that same project mapping to the State Cache,
which as a side effect resets the PendingRefresh flag. -/
theorem C10_fetch_inserts_cached_project (b : Bridge)
    (es : List (String × PyVal))
    (hlatest : ¬ b.latest_project_state.isEmpty)
    (habsent : dictLookup es "project" = none)
    (hpage : b.hasPage = true) :
    (get_timeline_info b (some (.vdict es))).2 =
      es ++ [("project", .vdict b.latest_project_state)] ∧
    (get_timeline_info b (some (.vdict es))).1.last_timeline_info =
      es ++ [("project", .vdict b.latest_project_state)] ∧
    (get_timeline_info b (some (.vdict es))).1.latest_project_state =
      b.latest_project_state ∧
    (get_timeline_info b (some (.vdict es))).1.timeline_state =
      buildTimelineState b.latest_project_state ∧
    (get_timeline_info b (some (.vdict es))).1.state_refresh_pending =
      false := by
  have hv : (evaluateJs b.hasPage (some (.vdict es)) .vnone).value =
      .vdict es := by
    simp [evaluateJs, hpage, convertVariant_id]
  have haug : augmentInfo b es =
      es ++ [("project", .vdict b.latest_project_state)] := by
    simp [augmentInfo, hlatest, habsent]
  have hlook : dictLookup (es ++ [("project", .vdict b.latest_project_state)])
      "project" = some (.vdict b.latest_project_state) :=
    dictLookup_append_absent es "project" _ habsent
  rw [get_timeline_info, hv]
  simp [haug, hlook, applyProjectStateDict]

/-- Witness for C10: a bridge holding project state `{"x": 1}` with the
PendingRefresh flag raised fetches `{"a": 1}`; the flag is reset. -/
theorem C10_fetch_inserts_cached_project_witness :
    (get_timeline_info
        (queueStateRefresh
          (applyProjectStateDict (initialBridge true) [("x", .vint 1)]))
        (some (.vdict [("a", .vint 1)]))).1.state_refresh_pending = false :=
  (C10_fetch_inserts_cached_project
    (queueStateRefresh
      (applyProjectStateDict (initialBridge true) [("x", .vint 1)]))
    [("a", .vint 1)] (by decide) rfl rfl).2.2.2.2
